import Mathlib

/-!
Verification of the Feature Derivation & Embedding Calibration Engine of
`import/beets2tsnot.py` (classes `EssentiaProcessor`, `FeatureProcessor`,
`PCAComputer`, and the PCA persistence methods of `DatabaseManager`).

The Python code computes with IEEE doubles; the embedding models every
numeric value as an exact fraction.  Because `ℚ`'s arithmetic in Mathlib
normalizes through `Nat.gcd` (which the kernel cannot evaluate), the
embedding carries fractions in a raw executable representation `F`
(numerator/denominator without normalization) whose operations mirror
exact rational arithmetic; `F.toRat` maps back to `ℚ` and homomorphism
lemmas connect the two.  Every `F` value built by the model keeps a
positive denominator (`F.WF`).
-/

set_option maxRecDepth 100000

/-- Raw executable fraction `num / den`.  All model operations keep
`den` positive; comparisons are by cross multiplication. -/
structure F where
  num : Int
  den : Nat
  deriving DecidableEq

namespace F

/-- Well-formedness: the denominator is positive. -/
def WF (x : F) : Prop := 0 < x.den

instance (x : F) : Decidable (WF x) := by unfold WF; infer_instance

/-- The rational value an `F` denotes. -/
def toRat (x : F) : ℚ := (x.num : ℚ) / (x.den : ℚ)

/-- Embed an integer. -/
def ofInt (n : Int) : F := ⟨n, 1⟩

theorem WF_ofInt (n : Int) : (ofInt n).WF := Nat.one_pos

/-- Addition of fractions (no normalization). -/
def add (x y : F) : F := ⟨x.num * (y.den : Int) + y.num * (x.den : Int), x.den * y.den⟩

/-- Subtraction of fractions. -/
def sub (x y : F) : F := ⟨x.num * (y.den : Int) - y.num * (x.den : Int), x.den * y.den⟩

/-- Multiplication of fractions. -/
def mul (x y : F) : F := ⟨x.num * y.num, x.den * y.den⟩

/-- Division of fractions: `(a/b) / (c/d) = (a·d·sign c) / (b·|c|)`.
Division by a zero value yields the ill-formed `⟨0, 0⟩`; every division
performed by the model is guarded (the divisor is at least `ε > 0`),
exactly as the Python code guards with `max(_, epsilon)` or `_ + epsilon`. -/
def div (x y : F) : F :=
  if y.num = 0 then ⟨0, 0⟩ else ⟨x.num * (y.den : Int) * y.num.sign, x.den * y.num.natAbs⟩

/-- Boolean comparison by cross multiplication (valid for positive denominators). -/
def ble (x y : F) : Bool := decide (x.num * (y.den : Int) ≤ y.num * (x.den : Int))

/-- Boolean strict comparison by cross multiplication. -/
def blt (x y : F) : Bool := decide (x.num * (y.den : Int) < y.num * (x.den : Int))

/-- Propositional `≤` by cross multiplication. -/
def le (x y : F) : Prop := x.num * (y.den : Int) ≤ y.num * (x.den : Int)

/-- Propositional `<` by cross multiplication. -/
def lt (x y : F) : Prop := x.num * (y.den : Int) < y.num * (x.den : Int)

instance (x y : F) : Decidable (le x y) := by unfold le; infer_instance
instance (x y : F) : Decidable (lt x y) := by unfold lt; infer_instance

/-- Python's built-in `min(a, b)`: returns the first argument on ties. -/
def pymin (x y : F) : F := if ble x y then x else y

/-- Python's built-in `max(a, b)`: returns the first argument on ties. -/
def pymax (x y : F) : F := if ble y x then x else y

/-- Python's built-in `abs`. -/
def pyabs (x : F) : F := ⟨(x.num.natAbs : Int), x.den⟩

theorem WF.add {x y : F} (hx : x.WF) (hy : y.WF) : (add x y).WF :=
  Nat.mul_pos hx hy

theorem WF.sub {x y : F} (hx : x.WF) (hy : y.WF) : (sub x y).WF :=
  Nat.mul_pos hx hy

theorem WF.mul {x y : F} (hx : x.WF) (hy : y.WF) : (mul x y).WF :=
  Nat.mul_pos hx hy

theorem WF.pymin {x y : F} (hx : x.WF) (hy : y.WF) : (pymin x y).WF := by
  unfold F.pymin; split <;> assumption

theorem WF.pymax {x y : F} (hx : x.WF) (hy : y.WF) : (pymax x y).WF := by
  unfold F.pymax; split <;> assumption

theorem WF.pyabs {x : F} (hx : x.WF) : (pyabs x).WF := hx

theorem WF.div {x y : F} (hx : x.WF) (hy : y.num ≠ 0) : (F.div x y).WF := by
  unfold F.div
  simp only [hy, if_false]
  exact Nat.mul_pos hx (Int.natAbs_pos.mpr hy)

theorem toRat_ofInt (n : Int) : (ofInt n).toRat = (n : ℚ) := by
  simp [ofInt, toRat]

theorem den_pos_cast {x : F} (hx : x.WF) : (0 : ℚ) < (x.den : ℚ) := by
  exact_mod_cast hx

theorem toRat_add {x y : F} (hx : x.WF) (hy : y.WF) :
    (add x y).toRat = x.toRat + y.toRat := by
  unfold add toRat
  have hbx := (den_pos_cast hx).ne'
  have hby := (den_pos_cast hy).ne'
  field_simp
  all_goals push_cast
  all_goals ring

theorem toRat_sub {x y : F} (hx : x.WF) (hy : y.WF) :
    (sub x y).toRat = x.toRat - y.toRat := by
  unfold sub toRat
  have hbx := (den_pos_cast hx).ne'
  have hby := (den_pos_cast hy).ne'
  field_simp
  push_cast
  ring

theorem toRat_mul (x y : F) : (mul x y).toRat = x.toRat * y.toRat := by
  unfold mul toRat
  push_cast
  rw [div_mul_div_comm]

theorem toRat_div {x y : F} (hx : x.WF) (hywf : y.WF) (hy : y.num ≠ 0) :
    (F.div x y).toRat = x.toRat / y.toRat := by
  unfold F.div toRat
  simp only [hy, if_false]
  have hbx := (den_pos_cast hx).ne'
  have hby := (den_pos_cast hywf).ne'
  have hynq : (y.num : ℚ) ≠ 0 := Int.cast_ne_zero.mpr hy
  have habs : ((y.num.natAbs : ℚ)) ≠ 0 := by
    exact_mod_cast Int.natAbs_ne_zero.mpr hy
  rcases lt_trichotomy y.num 0 with h | h | h
  · have hs : y.num.sign = -1 := Int.sign_eq_neg_one_of_neg h
    have ha' : (y.num.natAbs : Int) = -y.num := by omega
    have ha : ((y.num.natAbs : ℕ) : ℚ) = -(y.num : ℚ) := by
      rw [← Int.cast_natCast, ha']
      push_cast
      ring
    push_cast [hs]
    rw [ha]
    field_simp
    all_goals ring
  · exact absurd h hy
  · have hs : y.num.sign = 1 := Int.sign_eq_one_of_pos h
    have ha' : (y.num.natAbs : Int) = y.num := by omega
    have ha : ((y.num.natAbs : ℕ) : ℚ) = (y.num : ℚ) := by
      rw [← Int.cast_natCast, ha']
    push_cast [hs]
    rw [ha]
    field_simp
    all_goals ring

theorem le_iff_toRat {x y : F} (hx : x.WF) (hy : y.WF) :
    le x y ↔ x.toRat ≤ y.toRat := by
  unfold le toRat
  rw [div_le_div_iff₀ (den_pos_cast hx) (den_pos_cast hy)]
  exact_mod_cast Iff.rfl

theorem lt_iff_toRat {x y : F} (hx : x.WF) (hy : y.WF) :
    lt x y ↔ x.toRat < y.toRat := by
  unfold lt toRat
  rw [div_lt_div_iff₀ (den_pos_cast hx) (den_pos_cast hy)]
  exact_mod_cast Iff.rfl

theorem ble_iff_toRat {x y : F} (hx : x.WF) (hy : y.WF) :
    ble x y = true ↔ x.toRat ≤ y.toRat := by
  unfold ble
  rw [decide_eq_true_iff]
  exact (le_iff_toRat hx hy)

theorem blt_iff_toRat {x y : F} (hx : x.WF) (hy : y.WF) :
    blt x y = true ↔ x.toRat < y.toRat := by
  unfold blt
  rw [decide_eq_true_iff]
  exact (lt_iff_toRat hx hy)

theorem blt_eq_false_iff_toRat {x y : F} (hx : x.WF) (hy : y.WF) :
    blt x y = false ↔ y.toRat ≤ x.toRat := by
  rw [← Bool.not_eq_true, not_iff_comm, blt_iff_toRat hx hy]
  exact not_le

theorem toRat_pymin {x y : F} (hx : x.WF) (hy : y.WF) :
    (pymin x y).toRat = min x.toRat y.toRat := by
  unfold pymin
  by_cases hc : x.toRat ≤ y.toRat
  · rw [if_pos ((ble_iff_toRat hx hy).mpr hc), min_eq_left hc]
  · have hb : ¬ (ble x y = true) := fun h => hc ((ble_iff_toRat hx hy).mp h)
    rw [if_neg hb, min_eq_right (le_of_not_le hc)]

theorem toRat_pymax {x y : F} (hx : x.WF) (hy : y.WF) :
    (pymax x y).toRat = max x.toRat y.toRat := by
  unfold pymax
  by_cases hc : y.toRat ≤ x.toRat
  · rw [if_pos ((ble_iff_toRat hy hx).mpr hc), max_eq_left hc]
  · have hb : ¬ (ble y x = true) := fun h => hc ((ble_iff_toRat hy hx).mp h)
    rw [if_neg hb, max_eq_right (le_of_not_le hc)]

theorem toRat_pyabs (x : F) : (pyabs x).toRat = |x.toRat| := by
  have h1 : ((x.num.natAbs : Int) : ℚ) = |(x.num : ℚ)| := by
    rcases le_or_lt 0 x.num with h | h
    · have hn : (x.num.natAbs : Int) = x.num := by omega
      rw [hn, abs_of_nonneg]
      exact_mod_cast h
    · have hn : (x.num.natAbs : Int) = -x.num := by omega
      rw [hn, abs_of_neg]
      · push_cast
        ring
      · exact_mod_cast h
  have h2 : |((x.den : ℚ))| = (x.den : ℚ) := abs_of_nonneg (by positivity)
  show ((x.num.natAbs : Int) : ℚ) / ((x.den : ℚ)) = |x.toRat|
  rw [h1, toRat, abs_div, h2]

end F

namespace F

theorem toRat_pos_iff {x : F} (hx : x.WF) : 0 < x.toRat ↔ 0 < x.num := by
  unfold toRat
  rw [lt_div_iff₀ (den_pos_cast hx), zero_mul]
  exact_mod_cast Iff.rfl

theorem toRat_eq_zero_iff {x : F} (hx : x.WF) : x.toRat = 0 ↔ x.num = 0 := by
  unfold toRat
  rw [div_eq_zero_iff]
  constructor
  · rintro (h | h)
    · exact_mod_cast h
    · exact absurd h (den_pos_cast hx).ne'
  · intro h
    exact Or.inl (by exact_mod_cast h)

end F

/-!
Model of `FeatureProcessor` (`beets2tsnot.py`, lines 491-609).

`flatten_essentia_features` produces a flat string-keyed map; the index
derivation only reads numeric entries through `dict.get(key, 0.0)`, so the
embedding models the flattened map as an association list of `F` values.
`epsilon` is `FeatureProcessor.__init__`'s `self.epsilon = 1e-12`, modeled
as the exact rational 10⁻¹².
-/

/-- Flattened feature map: association list from flattened key to value. -/
abbrev FlatMap := List (String × F)

/-- Python `features.get(key, 0.0)`: first binding of the key, defaulting to 0. -/
def FlatMap.fget (m : FlatMap) (k : String) : F :=
  ((List.find? (fun p => p.1 == k) m).map Prod.snd).getD ⟨0, 1⟩

/-- Every value of the map is a well-formed fraction. -/
def FlatMap.WF (m : FlatMap) : Prop := ∀ p ∈ m, (Prod.snd p).WF

theorem FlatMap.fget_WF {m : FlatMap} (hm : m.WF) (k : String) : (m.fget k).WF := by
  unfold fget
  cases hfind : List.find? (fun p => p.1 == k) m with
  | none => exact Nat.one_pos
  | some p =>
    exact hm p (List.mem_of_find?_eq_some hfind)

/-- `self.epsilon = 1e-12`. -/
def epsilon : F := ⟨1, 1000000000000⟩

theorem epsilon_WF : epsilon.WF := by decide

/-- The 14 direct indices (`_extract_direct_indices`'s `mapping` keys, in order). -/
structure DirectIndices where
  bpm : F
  danceability : F
  onset_rate : F
  beat_punch : F
  fifths_strength : F
  chord_strength : F
  chord_change_rate : F
  crest : F
  entropy : F
  spectral_centroid : F
  spectral_rolloff : F
  spectral_kurtosis : F
  spectral_energy : F
  spectral_flatness : F
  deriving DecidableEq

/-- The 7 derived indices of `_calculate_derived_indices`. -/
structure DerivedIndices where
  opb : F
  tonal_clarity : F
  pulse_cohesion : F
  tuning_purity : F
  sub_drive : F
  air_sizzle : F
  spectral_slope : F
  deriving DecidableEq

/-- `_extract_direct_indices`: each output is `features.get(key, 0.0)` for a
fixed key (lines 533-563). -/
def extract_direct_indices (features : FlatMap) : DirectIndices where
  bpm := features.fget "essentia__rhythm__bpm"
  danceability := features.fget "essentia__rhythm__danceability"
  onset_rate := features.fget "essentia__rhythm__onset_rate"
  beat_punch := features.fget "essentia__rhythm__beats_loudness__mean"
  fifths_strength := features.fget "essentia__tonal__tuning_diatonic_strength"
  chord_strength := features.fget "essentia__tonal__chords_strength__mean"
  chord_change_rate := features.fget "essentia__tonal__chords_changes_rate"
  crest := features.fget "essentia__tonal__hpcp_crest__mean"
  entropy := features.fget "essentia__tonal__hpcp_entropy__mean"
  spectral_centroid := features.fget "essentia__lowlevel__spectral_centroid__mean"
  spectral_rolloff := features.fget "essentia__lowlevel__spectral_rolloff__mean"
  spectral_kurtosis := features.fget "essentia__lowlevel__spectral_kurtosis__mean"
  spectral_energy := features.fget "essentia__lowlevel__spectral_energy__mean"
  spectral_flatness := features.fget "essentia__lowlevel__barkbands_flatness_db__mean"

/-- `centroid / max(centroid, epsilon)` (line 596). -/
def centroid_norm (indices : DirectIndices) : F :=
  F.div indices.spectral_centroid (F.pymax indices.spectral_centroid epsilon)

/-- `rolloff / max(rolloff, epsilon)` (line 599). -/
def rolloff_norm (indices : DirectIndices) : F :=
  F.div indices.spectral_rolloff (F.pymax indices.spectral_rolloff epsilon)

/-- `derived['sub_drive'] = max(0, min(1, 1 - centroid_norm))` (line 601). -/
def sub_drive (indices : DirectIndices) : F :=
  F.pymax (F.ofInt 0) (F.pymin (F.ofInt 1) (F.sub (F.ofInt 1) (centroid_norm indices)))

/-- `derived['air_sizzle'] = max(0, min(1, centroid_norm * rolloff_norm))` (line 602). -/
def air_sizzle (indices : DirectIndices) : F :=
  F.pymax (F.ofInt 0)
    (F.pymin (F.ofInt 1) (F.mul (centroid_norm indices) (rolloff_norm indices)))

/-- `_calculate_derived_indices` (lines 565-609). -/
def calculate_derived_indices (indices : DirectIndices) (features : FlatMap) : DerivedIndices where
  opb := F.div (F.mul indices.onset_rate (F.ofInt 60)) (F.pymax indices.bpm epsilon)
  tonal_clarity :=
    F.pymax (F.pymax (features.fget "essentia__tonal__key_edma__strength")
        (features.fget "essentia__tonal__key_krumhansl__strength"))
      (features.fget "essentia__tonal__key_temperley__strength")
  pulse_cohesion :=
    F.div (features.fget "essentia__rhythm__bpm_histogram_first_peak_weight")
      (F.add (features.fget "essentia__rhythm__bpm_histogram_second_peak_weight") epsilon)
  tuning_purity :=
    F.pymax (F.ofInt 0) (F.pymin (F.ofInt 1) (F.sub (F.ofInt 1)
      (F.div (F.pyabs (features.fget "essentia__tonal__tuning_equal_tempered_deviation"))
        (F.ofInt 50))))
  sub_drive := sub_drive indices
  air_sizzle := air_sizzle indices
  spectral_slope :=
    F.div (F.sub (air_sizzle indices) (sub_drive indices))
      (F.add (F.add (air_sizzle indices) (sub_drive indices)) epsilon)

/-- `extract_indices` (lines 521-531): the 14 direct indices merged with the
7 derived ones — 21 named indices in total. -/
def extract_indices (flattened_features : FlatMap) : DirectIndices × DerivedIndices :=
  let direct := extract_direct_indices flattened_features
  (direct, calculate_derived_indices direct flattened_features)

instance (m : FlatMap) : Decidable (FlatMap.WF m) := List.decidableBAll _ m

theorem epsilon_toRat : epsilon.toRat = 1 / 1000000000000 := by
  norm_num [epsilon, F.toRat]

theorem extract_indices_eq (m : FlatMap) :
    extract_indices m
      = (extract_direct_indices m, calculate_derived_indices (extract_direct_indices m) m) :=
  rfl

/-- Self-referential normalization `c / max(c, ε)` evaluates to exactly 1
whenever `c > ε` (the `max` returns `c` itself and the quotient cancels). -/
theorem self_norm_one {c : F} (hw : c.WF) (hlt : epsilon.toRat < c.toRat) :
    (F.div c (F.pymax c epsilon)).toRat = 1 := by
  have hepsPos : (0 : ℚ) < epsilon.toRat := by rw [epsilon_toRat]; norm_num
  have hcpos : 0 < c.toRat := hepsPos.trans hlt
  have hmaxWF : (F.pymax c epsilon).WF := F.WF.pymax hw epsilon_WF
  have hmaxRat : (F.pymax c epsilon).toRat = c.toRat := by
    rw [F.toRat_pymax hw epsilon_WF]
    exact max_eq_left (le_of_lt hlt)
  have hnum : (F.pymax c epsilon).num ≠ 0 := by
    intro h0
    have h1 := (F.toRat_eq_zero_iff hmaxWF).mpr h0
    rw [hmaxRat] at h1
    exact hcpos.ne' h1
  rw [F.toRat_div hw hmaxWF hnum, hmaxRat, div_self hcpos.ne']

theorem self_norm_WF {c : F} (hw : c.WF) (hlt : epsilon.toRat < c.toRat) :
    (F.div c (F.pymax c epsilon)).WF := by
  have hepsPos : (0 : ℚ) < epsilon.toRat := by rw [epsilon_toRat]; norm_num
  have hcpos : 0 < c.toRat := hepsPos.trans hlt
  have hmaxWF : (F.pymax c epsilon).WF := F.WF.pymax hw epsilon_WF
  have hmaxRat : (F.pymax c epsilon).toRat = c.toRat := by
    rw [F.toRat_pymax hw epsilon_WF]
    exact max_eq_left (le_of_lt hlt)
  have hnum : (F.pymax c epsilon).num ≠ 0 := by
    intro h0
    have h1 := (F.toRat_eq_zero_iff hmaxWF).mpr h0
    rw [hmaxRat] at h1
    exact hcpos.ne' h1
  exact F.WF.div hw hnum

/-- C4: for every well-formed flattened map whose spectral-centroid source value
exceeds ε = 1e-12, `extract_indices` yields `sub_drive = 0` exactly — the
self-referential normalization `centroid / max(centroid, ε)` collapses to 1 —
and if the spectral-rolloff source value also exceeds ε then `air_sizzle = 1`
for the same reason. -/
theorem C4_sub_drive_zero_air_sizzle_one (m : FlatMap) (hm : m.WF)
    (hc : epsilon.toRat < (m.fget "essentia__lowlevel__spectral_centroid__mean").toRat) :
    ((extract_indices m).2.sub_drive).toRat = 0 ∧
      (epsilon.toRat < (m.fget "essentia__lowlevel__spectral_rolloff__mean").toRat →
        ((extract_indices m).2.air_sizzle).toRat = 1) := by
  rw [extract_indices_eq]
  have hcw : (m.fget "essentia__lowlevel__spectral_centroid__mean").WF :=
    FlatMap.fget_WF hm _
  have hcent :
      (extract_direct_indices m).spectral_centroid
        = m.fget "essentia__lowlevel__spectral_centroid__mean" := rfl
  have hnorm1 : (centroid_norm (extract_direct_indices m)).toRat = 1 := by
    unfold centroid_norm
    rw [hcent]
    exact self_norm_one hcw hc
  have hnormWF : (centroid_norm (extract_direct_indices m)).WF := by
    unfold centroid_norm
    rw [hcent]
    exact self_norm_WF hcw hc
  constructor
  · show (sub_drive (extract_direct_indices m)).toRat = 0
    unfold sub_drive
    have hsubWF : (F.sub (F.ofInt 1) (centroid_norm (extract_direct_indices m))).WF :=
      F.WF.sub (F.WF_ofInt 1) hnormWF
    have hsub0 : (F.sub (F.ofInt 1) (centroid_norm (extract_direct_indices m))).toRat = 0 := by
      rw [F.toRat_sub (F.WF_ofInt 1) hnormWF, hnorm1, F.toRat_ofInt]
      norm_num
    have hminWF :
        (F.pymin (F.ofInt 1) (F.sub (F.ofInt 1) (centroid_norm (extract_direct_indices m)))).WF :=
      F.WF.pymin (F.WF_ofInt 1) hsubWF
    rw [F.toRat_pymax (F.WF_ofInt 0) hminWF, F.toRat_pymin (F.WF_ofInt 1) hsubWF, hsub0]
    simp only [F.toRat_ofInt]
    norm_num
  · intro hr
    have hrw : (m.fget "essentia__lowlevel__spectral_rolloff__mean").WF :=
      FlatMap.fget_WF hm _
    have hroll :
        (extract_direct_indices m).spectral_rolloff
          = m.fget "essentia__lowlevel__spectral_rolloff__mean" := rfl
    have hrnorm1 : (rolloff_norm (extract_direct_indices m)).toRat = 1 := by
      unfold rolloff_norm
      rw [hroll]
      exact self_norm_one hrw hr
    show (air_sizzle (extract_direct_indices m)).toRat = 1
    unfold air_sizzle
    have hrnormWF : (rolloff_norm (extract_direct_indices m)).WF := by
      unfold rolloff_norm
      rw [hroll]
      exact self_norm_WF hrw hr
    have hmulWF :
        (F.mul (centroid_norm (extract_direct_indices m))
          (rolloff_norm (extract_direct_indices m))).WF :=
      F.WF.mul hnormWF hrnormWF
    have hmul1 :
        (F.mul (centroid_norm (extract_direct_indices m))
          (rolloff_norm (extract_direct_indices m))).toRat = 1 := by
      rw [F.toRat_mul, hnorm1, hrnorm1, mul_one]
    have hminWF :
        (F.pymin (F.ofInt 1) (F.mul (centroid_norm (extract_direct_indices m))
          (rolloff_norm (extract_direct_indices m)))).WF :=
      F.WF.pymin (F.WF_ofInt 1) hmulWF
    rw [F.toRat_pymax (F.WF_ofInt 0) hminWF, F.toRat_pymin (F.WF_ofInt 1) hmulWF, hmul1]
    simp only [F.toRat_ofInt]
    norm_num

/-- Witness for C4 at a concrete map: centroid value 1 and rolloff value 2,
both above ε, give `sub_drive = 0` and `air_sizzle = 1`. -/
theorem C4_sub_drive_zero_air_sizzle_one_witness :
    ((extract_indices [("essentia__lowlevel__spectral_centroid__mean", (⟨1, 1⟩ : F)),
        ("essentia__lowlevel__spectral_rolloff__mean", (⟨2, 1⟩ : F))]).2.sub_drive).toRat = 0 ∧
      ((extract_indices [("essentia__lowlevel__spectral_centroid__mean", (⟨1, 1⟩ : F)),
        ("essentia__lowlevel__spectral_rolloff__mean", (⟨2, 1⟩ : F))]).2.air_sizzle).toRat = 1 := by
  have hm : FlatMap.WF [("essentia__lowlevel__spectral_centroid__mean", (⟨1, 1⟩ : F)),
      ("essentia__lowlevel__spectral_rolloff__mean", (⟨2, 1⟩ : F))] := by decide
  have hc : epsilon.toRat
      < (FlatMap.fget [("essentia__lowlevel__spectral_centroid__mean", (⟨1, 1⟩ : F)),
          ("essentia__lowlevel__spectral_rolloff__mean", (⟨2, 1⟩ : F))]
          "essentia__lowlevel__spectral_centroid__mean").toRat := by
    have e1 : FlatMap.fget [("essentia__lowlevel__spectral_centroid__mean", (⟨1, 1⟩ : F)),
        ("essentia__lowlevel__spectral_rolloff__mean", (⟨2, 1⟩ : F))]
        "essentia__lowlevel__spectral_centroid__mean" = ⟨1, 1⟩ := by rfl
    rw [epsilon_toRat, e1]
    norm_num [F.toRat]
  have hr : epsilon.toRat
      < (FlatMap.fget [("essentia__lowlevel__spectral_centroid__mean", (⟨1, 1⟩ : F)),
          ("essentia__lowlevel__spectral_rolloff__mean", (⟨2, 1⟩ : F))]
          "essentia__lowlevel__spectral_rolloff__mean").toRat := by
    have e1 : FlatMap.fget [("essentia__lowlevel__spectral_centroid__mean", (⟨1, 1⟩ : F)),
        ("essentia__lowlevel__spectral_rolloff__mean", (⟨2, 1⟩ : F))]
        "essentia__lowlevel__spectral_rolloff__mean" = ⟨2, 1⟩ := by rfl
    rw [epsilon_toRat, e1]
    norm_num [F.toRat]
  obtain ⟨h1, h2⟩ := C4_sub_drive_zero_air_sizzle_one _ hm hc
  exact ⟨h1, h2 hr⟩

/-- C8: whenever the bpm source value is at most ε = 1e-12 (in particular the
`bpm = 0` of a silent track), `opb` is computed against the epsilon floor
`bpm_safe = max(bpm, ε) = ε`: no division error is possible and the result is
the well-defined finite rational `onset_rate · 60 / ε`. -/
theorem C8_opb_epsilon_floor (m : FlatMap) (hm : m.WF)
    (hb : (m.fget "essentia__rhythm__bpm").toRat ≤ epsilon.toRat) :
    ((extract_indices m).2.opb).toRat
        = (m.fget "essentia__rhythm__onset_rate").toRat * 60 / epsilon.toRat ∧
      ((extract_indices m).2.opb).WF := by
  rw [extract_indices_eq]
  have hbw : (m.fget "essentia__rhythm__bpm").WF := FlatMap.fget_WF hm _
  have how : (m.fget "essentia__rhythm__onset_rate").WF := FlatMap.fget_WF hm _
  have hbpm : (extract_direct_indices m).bpm = m.fget "essentia__rhythm__bpm" := rfl
  have honset :
      (extract_direct_indices m).onset_rate = m.fget "essentia__rhythm__onset_rate" := rfl
  have h60 : ((F.ofInt 60)).WF := F.WF_ofInt 60
  have hmaxWF : (F.pymax (extract_direct_indices m).bpm epsilon).WF := by
    rw [hbpm]; exact F.WF.pymax hbw epsilon_WF
  have hmaxRat : (F.pymax (extract_direct_indices m).bpm epsilon).toRat = epsilon.toRat := by
    rw [hbpm, F.toRat_pymax hbw epsilon_WF]
    exact max_eq_right hb
  have hepsPos : (0 : ℚ) < epsilon.toRat := by rw [epsilon_toRat]; norm_num
  have hnum : (F.pymax (extract_direct_indices m).bpm epsilon).num ≠ 0 := by
    intro h0
    have h1 := (F.toRat_eq_zero_iff hmaxWF).mpr h0
    rw [hmaxRat] at h1
    exact hepsPos.ne' h1
  have hmulWF : (F.mul (extract_direct_indices m).onset_rate (F.ofInt 60)).WF := by
    rw [honset]; exact F.WF.mul how h60
  constructor
  · show (F.div (F.mul (extract_direct_indices m).onset_rate (F.ofInt 60))
        (F.pymax (extract_direct_indices m).bpm epsilon)).toRat = _
    rw [F.toRat_div hmulWF hmaxWF hnum, hmaxRat, F.toRat_mul, honset, F.toRat_ofInt]
    norm_num
  · exact F.WF.div hmulWF hnum

/-- Witness for C8 at a concrete map: `bpm = 0` and `onset_rate = 3` give
`opb = 3·60/ε` with a well-formed (finite) result. -/
theorem C8_opb_epsilon_floor_witness :
    ((extract_indices [("essentia__rhythm__bpm", (⟨0, 1⟩ : F)),
        ("essentia__rhythm__onset_rate", (⟨3, 1⟩ : F))]).2.opb).toRat
        = (FlatMap.fget [("essentia__rhythm__bpm", (⟨0, 1⟩ : F)),
            ("essentia__rhythm__onset_rate", (⟨3, 1⟩ : F))]
            "essentia__rhythm__onset_rate").toRat * 60 / epsilon.toRat ∧
      ((extract_indices [("essentia__rhythm__bpm", (⟨0, 1⟩ : F)),
        ("essentia__rhythm__onset_rate", (⟨3, 1⟩ : F))]).2.opb).WF := by
  have hm : FlatMap.WF [("essentia__rhythm__bpm", (⟨0, 1⟩ : F)),
      ("essentia__rhythm__onset_rate", (⟨3, 1⟩ : F))] := by decide
  have hb : (FlatMap.fget [("essentia__rhythm__bpm", (⟨0, 1⟩ : F)),
      ("essentia__rhythm__onset_rate", (⟨3, 1⟩ : F))] "essentia__rhythm__bpm").toRat
      ≤ epsilon.toRat := by
    have e1 : FlatMap.fget [("essentia__rhythm__bpm", (⟨0, 1⟩ : F)),
        ("essentia__rhythm__onset_rate", (⟨3, 1⟩ : F))] "essentia__rhythm__bpm"
        = ⟨0, 1⟩ := by rfl
    rw [epsilon_toRat, e1]
    norm_num [F.toRat]
  exact C8_opb_epsilon_floor _ hm hb

/-- The flattened keys read by `_extract_direct_indices` and
`_calculate_derived_indices`. -/
def referenced_source_keys : List String :=
  ["essentia__rhythm__bpm", "essentia__rhythm__danceability",
   "essentia__rhythm__onset_rate", "essentia__rhythm__beats_loudness__mean",
   "essentia__tonal__tuning_diatonic_strength", "essentia__tonal__chords_strength__mean",
   "essentia__tonal__chords_changes_rate", "essentia__tonal__hpcp_crest__mean",
   "essentia__tonal__hpcp_entropy__mean", "essentia__lowlevel__spectral_centroid__mean",
   "essentia__lowlevel__spectral_rolloff__mean", "essentia__lowlevel__spectral_kurtosis__mean",
   "essentia__lowlevel__spectral_energy__mean", "essentia__lowlevel__barkbands_flatness_db__mean",
   "essentia__tonal__key_edma__strength", "essentia__tonal__key_krumhansl__strength",
   "essentia__tonal__key_temperley__strength",
   "essentia__rhythm__bpm_histogram_first_peak_weight",
   "essentia__rhythm__bpm_histogram_second_peak_weight",
   "essentia__tonal__tuning_equal_tempered_deviation"]

/-- C10: on a flattened map providing none of the referenced source keys
(every lookup falls to its 0.0 default), `extract_indices` still returns all
21 indices: every direct index is 0, and of the derived ones `opb`,
`tonal_clarity` and `pulse_cohesion` are 0 while `tuning_purity = 1`,
`sub_drive = 1`, `air_sizzle = 0` and `spectral_slope = -1/(1+ε)` — an
absent-measurement track is not all-zero in the derived dimensions. -/
theorem C10_absent_measurement_defaults (m : FlatMap)
    (habs : ∀ k ∈ referenced_source_keys, m.fget k = ⟨0, 1⟩) :
    ((extract_indices m).1.bpm.toRat = 0 ∧
      (extract_indices m).1.danceability.toRat = 0 ∧
      (extract_indices m).1.onset_rate.toRat = 0 ∧
      (extract_indices m).1.beat_punch.toRat = 0 ∧
      (extract_indices m).1.fifths_strength.toRat = 0 ∧
      (extract_indices m).1.chord_strength.toRat = 0 ∧
      (extract_indices m).1.chord_change_rate.toRat = 0 ∧
      (extract_indices m).1.crest.toRat = 0 ∧
      (extract_indices m).1.entropy.toRat = 0 ∧
      (extract_indices m).1.spectral_centroid.toRat = 0 ∧
      (extract_indices m).1.spectral_rolloff.toRat = 0 ∧
      (extract_indices m).1.spectral_kurtosis.toRat = 0 ∧
      (extract_indices m).1.spectral_energy.toRat = 0 ∧
      (extract_indices m).1.spectral_flatness.toRat = 0) ∧
    (extract_indices m).2.opb.toRat = 0 ∧
    (extract_indices m).2.tonal_clarity.toRat = 0 ∧
    (extract_indices m).2.pulse_cohesion.toRat = 0 ∧
    (extract_indices m).2.tuning_purity.toRat = 1 ∧
    (extract_indices m).2.sub_drive.toRat = 1 ∧
    (extract_indices m).2.air_sizzle.toRat = 0 ∧
    (extract_indices m).2.spectral_slope.toRat = -1 / (1 + epsilon.toRat) := by
  have h1 := habs "essentia__rhythm__bpm" (by decide)
  have h2 := habs "essentia__rhythm__danceability" (by decide)
  have h3 := habs "essentia__rhythm__onset_rate" (by decide)
  have h4 := habs "essentia__rhythm__beats_loudness__mean" (by decide)
  have h5 := habs "essentia__tonal__tuning_diatonic_strength" (by decide)
  have h6 := habs "essentia__tonal__chords_strength__mean" (by decide)
  have h7 := habs "essentia__tonal__chords_changes_rate" (by decide)
  have h8 := habs "essentia__tonal__hpcp_crest__mean" (by decide)
  have h9 := habs "essentia__tonal__hpcp_entropy__mean" (by decide)
  have h10 := habs "essentia__lowlevel__spectral_centroid__mean" (by decide)
  have h11 := habs "essentia__lowlevel__spectral_rolloff__mean" (by decide)
  have h12 := habs "essentia__lowlevel__spectral_kurtosis__mean" (by decide)
  have h13 := habs "essentia__lowlevel__spectral_energy__mean" (by decide)
  have h14 := habs "essentia__lowlevel__barkbands_flatness_db__mean" (by decide)
  have h15 := habs "essentia__tonal__key_edma__strength" (by decide)
  have h16 := habs "essentia__tonal__key_krumhansl__strength" (by decide)
  have h17 := habs "essentia__tonal__key_temperley__strength" (by decide)
  have h18 := habs "essentia__rhythm__bpm_histogram_first_peak_weight" (by decide)
  have h19 := habs "essentia__rhythm__bpm_histogram_second_peak_weight" (by decide)
  have h20 := habs "essentia__tonal__tuning_equal_tempered_deviation" (by decide)
  have hd : extract_direct_indices m
      = ⟨⟨0, 1⟩, ⟨0, 1⟩, ⟨0, 1⟩, ⟨0, 1⟩, ⟨0, 1⟩, ⟨0, 1⟩, ⟨0, 1⟩,
         ⟨0, 1⟩, ⟨0, 1⟩, ⟨0, 1⟩, ⟨0, 1⟩, ⟨0, 1⟩, ⟨0, 1⟩, ⟨0, 1⟩⟩ := by
    unfold extract_direct_indices
    rw [h1, h2, h3, h4, h5, h6, h7, h8, h9, h10, h11, h12, h13, h14]
  rw [extract_indices_eq, hd]
  unfold calculate_derived_indices sub_drive air_sizzle centroid_norm rolloff_norm
  rw [h15, h16, h17, h18, h19, h20]
  rw [epsilon_toRat]
  refine ⟨⟨?_, ?_, ?_, ?_, ?_, ?_, ?_, ?_, ?_, ?_, ?_, ?_, ?_, ?_⟩,
    ?_, ?_, ?_, ?_, ?_, ?_, ?_⟩ <;>
    norm_num [F.toRat, F.div, F.pymax, F.pymin, F.pyabs, F.sub, F.add, F.mul,
      F.ble, epsilon, F.ofInt, Int.sign]

/-- Witness for C10: the empty flattened map provides none of the source keys. -/
theorem C10_absent_measurement_defaults_witness :
    (extract_indices ([] : FlatMap)).2.tuning_purity.toRat = 1 ∧
      (extract_indices ([] : FlatMap)).2.sub_drive.toRat = 1 ∧
      (extract_indices ([] : FlatMap)).2.air_sizzle.toRat = 0 ∧
      (extract_indices ([] : FlatMap)).2.spectral_slope.toRat
        = -1 / (1 + epsilon.toRat) := by
  have habs : ∀ k ∈ referenced_source_keys, FlatMap.fget [] k = ⟨0, 1⟩ := by decide
  obtain ⟨-, -, -, -, h4, h5, h6, h7⟩ := C10_absent_measurement_defaults [] habs
  exact ⟨h4, h5, h6, h7⟩

/-!
Model of `EssentiaProcessor.extract_features` (lines 322-414) together with
`_can_amplify` (416-417), `_amplify_track` (419-446) and
`_generate_silent_features` (448-482).

The outside world (file system, the extractor process, ffmpeg, the JSON
parser) is abstracted into an `ExtractEnv` record: each field holds the
outcome the corresponding external step would produce.  In particular the
`silent` flag of a nonzero exit models the test
`'completely silent file' in stderr.lower()` (line 365), and `parses` models
whether reading and `json.loads`-parsing the sanitized output succeeds
(lines 385-388).  The call's observable side effects are recorded as an
ordered trace of `Event`s; the Python code passes the source path only as a
read-only command-line argument, so the event vocabulary — which covers every
file created, deleted or executed by the function — contains no write to the
source file.
-/

/-- Outcome of one invocation of the external extractor (`subprocess.run`,
line 356), as seen by `extract_features`. -/
inductive RunOutcome where
  | exitZero (parses : Bool)
  | exitNonzero (silent : Bool)
  | timeoutExpired
  | raisesOther
  deriving DecidableEq, Fintype

/-- Outcome of the `_amplify_track` helper (lines 419-446). -/
inductive AmplifyOutcome where
  | succeeds
  | exitNonzero
  | raisesAfterCreate
  | raisesBeforeCreate
  deriving DecidableEq, Fintype

/-- Environment of one `extract_features` call.  `run1` is the extractor
outcome on the original path, `run2` the outcome on the amplified rendering
(reachable only when amplification succeeded). -/
structure ExtractEnv where
  validate_files : Bool
  file_exists : Bool
  can_amplify : Bool
  amplify : AmplifyOutcome
  run1 : RunOutcome
  run2 : RunOutcome
  deriving DecidableEq, Fintype

/-- Failure taxonomy of the adapter (the `'type'` field of `error_info`). -/
inductive ErrType where
  | file_not_found
  | essentia_failed
  | timeout
  | json_parse
  | unexpected
  deriving DecidableEq, Fintype

/-- Error record (`{'type': ..., 'message': ...}`; the message text carries no
logic and is omitted). -/
structure ErrInfo where
  type : ErrType
  deriving DecidableEq, Fintype

/-- Features result: a parsed measurement tree, or the synthetic all-zero tree
of `_generate_silent_features`. -/
inductive Features where
  | parsed
  | silentTree
  deriving DecidableEq, Fintype

/-- Observable events of a call, in program order. -/
inductive Event where
  | runExtractor (onAmplified : Bool)
  | createTmpJson
  | deleteTmpJson
  | runFfmpeg
  | createTmpWav
  | deleteTmpWav
  deriving DecidableEq, Fintype

/-- Model of `_amplify_track`: produced-a-path flag and event trace.  On an
exception after the temporary `.wav` exists (line 444), the handler returns
`None` without unlinking it. -/
def amplify_track (env : ExtractEnv) : Bool × List Event :=
  match env.amplify with
  | .succeeds => (true, [.createTmpWav, .runFfmpeg])
  | .exitNonzero => (false, [.createTmpWav, .runFfmpeg, .deleteTmpWav])
  | .raisesAfterCreate => (false, [.createTmpWav, .runFfmpeg])
  | .raisesBeforeCreate => (false, [])

/-- Result of one iteration of the `while True` loop (lines 342-392): either
the function's result, or the `continue` at line 371 after a successful
amplification. -/
inductive IterResult where
  | done (features : Option Features) (error : Option ErrInfo)
  | continueAmplified
  deriving DecidableEq

/-- One iteration of the loop body.  `amplified` says whether `path_to_use`
is the amplified rendering; the temporary output file is created before the
invocation and unlinked by the inner `finally` (line 391-392) on every exit
of the iteration, including `continue` and exceptions. -/
def loop_iter (env : ExtractEnv) (amplified triedAmplify silentAttempted : Bool) :
    IterResult × List Event :=
  let pre : List Event := [.createTmpJson, .runExtractor amplified]
  let fin : List Event := [.deleteTmpJson]
  match (if amplified then env.run2 else env.run1) with
  | .exitZero parses =>
      if parses then (.done (some .parsed) none, pre ++ fin)
      else (.done none (some ⟨.json_parse⟩), pre ++ fin)
  | .exitNonzero silent =>
      if silent then
        if !triedAmplify && env.can_amplify then
          match amplify_track env with
          | (true, ev) => (.continueAmplified, pre ++ ev ++ fin)
          | (false, ev) =>
              if !silentAttempted then (.done (some .silentTree) none, pre ++ ev ++ fin)
              else (.done none (some ⟨.essentia_failed⟩), pre ++ ev ++ fin)
        else
          if !silentAttempted then (.done (some .silentTree) none, pre ++ fin)
          else (.done none (some ⟨.essentia_failed⟩), pre ++ fin)
      else (.done none (some ⟨.essentia_failed⟩), pre ++ fin)
  | .timeoutExpired => (.done none (some ⟨.timeout⟩), pre ++ fin)
  | .raisesOther => (.done none (some ⟨.unexpected⟩), pre ++ fin)

/-- The retry loop, with an explicit fuel bound standing for the number of
iterations still allowed; `none` means the loop would still be running after
`fuel` iterations.  The returned `Bool` is whether `amplified_path` is set at
the return (it decides the outer `finally`'s deletion). -/
def extract_loop (env : ExtractEnv) :
    Nat → Bool → Bool → Bool → Option ((Option Features × Option ErrInfo) × List Event × Bool)
  | 0, _, _, _ => none
  | fuel + 1, amplified, triedAmplify, silentAttempted =>
    match loop_iter env amplified triedAmplify silentAttempted with
    | (.done f e, ev) => some ((f, e), ev, amplified)
    | (.continueAmplified, ev) =>
        match extract_loop env fuel true true silentAttempted with
        | none => none
        | some (r, ev2, amp) => some (r, ev ++ ev2, amp)

/-- `extract_features` (lines 322-414): file validation, the retry loop (fuel
2 suffices: a second `continue` is impossible once `tried_amplify` is set),
and the outer `finally` (lines 412-414) which unlinks the amplified rendering
exactly when `amplified_path` was set. -/
def extract_features (env : ExtractEnv) : (Option Features × Option ErrInfo) × List Event :=
  if env.validate_files && !env.file_exists then
    ((none, some ⟨.file_not_found⟩), [])
  else
    match extract_loop env 2 false false false with
    | some (r, ev, amp) => (r, ev ++ (if amp then [.deleteTmpWav] else []))
    | none => ((none, none), [])

/-- With `tried_amplify` already set, the loop body can never `continue`
again: the amplification branch (line 366) is guarded by `not tried_amplify`. -/
theorem loop_iter_tried_done :
    ∀ (env : ExtractEnv) (amplified silentAttempted : Bool),
      (loop_iter env amplified true silentAttempted).1 ≠ IterResult.continueAmplified := by
  intro env amplified silentAttempted
  unfold loop_iter
  cases hrun : (if amplified then env.run2 else env.run1) with
  | exitZero parses => cases parses <;> simp
  | exitNonzero silent => cases silent <;> cases silentAttempted <;> simp
  | timeoutExpired => simp
  | raisesOther => simp

/-- After a `continue`, any remaining fuel computes the same result as fuel 1. -/
theorem extract_loop_tried (env : ExtractEnv) (n : Nat) (s : Bool) :
    extract_loop env (n + 1) true true s = extract_loop env 1 true true s := by
  simp only [extract_loop]
  rcases hit : loop_iter env true true s with ⟨ir, ev⟩
  cases ir with
  | done f e => rfl
  | continueAmplified =>
      have h1 : (loop_iter env true true s).1 = IterResult.continueAmplified := by
        rw [hit]
      exact absurd h1 (loop_iter_tried_done env true s)

/-- Any fuel of at least 2 computes the same result as fuel 2: the retry loop
terminates within two iterations. -/
theorem extract_loop_fuel (env : ExtractEnv) (fuel : Nat) (h : 2 ≤ fuel) (s : Bool) :
    extract_loop env fuel false false s = extract_loop env 2 false false s := by
  obtain ⟨k, rfl⟩ : ∃ k, fuel = k + 2 := ⟨fuel - 2, by omega⟩
  have hstep : ∀ (m : Nat),
      extract_loop env (m + 1) false false s
        = match loop_iter env false false s with
          | (.done f e, ev) => some ((f, e), ev, false)
          | (.continueAmplified, ev) =>
              match extract_loop env m true true s with
              | none => none
              | some (r, ev2, amp) => some (r, ev ++ ev2, amp) := fun m => rfl
  rw [show k + 2 = k + 1 + 1 from rfl, hstep (k + 1), extract_loop_tried env k s,
    show (2 : Nat) = 1 + 1 from rfl, hstep 1]

set_option maxHeartbeats 1000000 in
/-- C5: for every environment, a call performs at most two extractor
invocations — a second one happens only when the first reported silence and
amplification succeeded — plus at most one ffmpeg invocation; the retry loop
terminates (any fuel ≥ 2 gives the fuel-2 result, which is never the
exhausted-fuel marker), ending in a feature tree or exactly one typed
failure; and every event of the trace is an extractor/ffmpeg invocation or a
creation/deletion of one of the two temporaries — no event touches the
source file. -/
theorem C5_bounded_invocations_and_termination (env : ExtractEnv) :
    (∀ fuel, 2 ≤ fuel → ∀ s, extract_loop env fuel false false s
        = extract_loop env 2 false false s) ∧
    ((extract_loop env 2 false false false).isSome = true) ∧
    ((extract_features env).2.count (Event.runExtractor false)
        + (extract_features env).2.count (Event.runExtractor true) ≤ 2) ∧
    ((extract_features env).2.count (Event.runExtractor true) ≤ 1) ∧
    ((extract_features env).2.count (Event.runExtractor true) = 1 →
        env.run1 = RunOutcome.exitNonzero true ∧ env.amplify = AmplifyOutcome.succeeds) ∧
    ((extract_features env).2.count Event.runFfmpeg ≤ 1) ∧
    ((∃ f, (extract_features env).1 = (some f, none)) ∨
      (∃ e, (extract_features env).1 = (none, some e))) ∧
    (∀ ev ∈ (extract_features env).2,
      ev ∈ [Event.runExtractor false, Event.runExtractor true, Event.createTmpJson,
        Event.deleteTmpJson, Event.runFfmpeg, Event.createTmpWav, Event.deleteTmpWav]) := by
  refine ⟨fun fuel h s => extract_loop_fuel env fuel h s, ?_⟩
  obtain ⟨v, f, c, a, r1, r2⟩ := env
  revert v f c a r1 r2
  decide

/-- Witness for C5 at the silence-then-amplify environment: fuel 5 equals
fuel 2, and the count-two case indeed has a silent first run and successful
amplification. -/
theorem C5_bounded_invocations_and_termination_witness :
    extract_loop ⟨false, true, true, AmplifyOutcome.succeeds,
        RunOutcome.exitNonzero true, RunOutcome.exitZero true⟩ 5 false false false
      = extract_loop ⟨false, true, true, AmplifyOutcome.succeeds,
        RunOutcome.exitNonzero true, RunOutcome.exitZero true⟩ 2 false false false ∧
    ((⟨false, true, true, AmplifyOutcome.succeeds, RunOutcome.exitNonzero true,
        RunOutcome.exitZero true⟩ : ExtractEnv).run1 = RunOutcome.exitNonzero true ∧
      (⟨false, true, true, AmplifyOutcome.succeeds, RunOutcome.exitNonzero true,
        RunOutcome.exitZero true⟩ : ExtractEnv).amplify = AmplifyOutcome.succeeds) :=
  ⟨(C5_bounded_invocations_and_termination _).1 5 (by decide) false,
    (C5_bounded_invocations_and_termination ⟨false, true, true, AmplifyOutcome.succeeds,
      RunOutcome.exitNonzero true, RunOutcome.exitZero true⟩).2.2.2.2.1 (by decide)⟩

set_option maxHeartbeats 1000000 in
/-- C9: `extract_features` returns exactly one of `(features, None)` — a
parsed tree or the synthetic-silence tree — or `(None, error)` with the error
type among the five of the taxonomy; never both a tree and an error, and
never neither. -/
theorem C9_success_xor_typed_failure (env : ExtractEnv) :
    ((∃ f, (extract_features env).1 = (some f, none)) ∨
      (∃ e, (extract_features env).1 = (none, some e) ∧
        (e.type = ErrType.file_not_found ∨ e.type = ErrType.essentia_failed ∨
          e.type = ErrType.timeout ∨ e.type = ErrType.json_parse ∨
          e.type = ErrType.unexpected))) ∧
    ¬((extract_features env).1.1.isSome = true ∧ (extract_features env).1.2.isSome = true) ∧
    ¬((extract_features env).1.1 = none ∧ (extract_features env).1.2 = none) := by
  obtain ⟨v, f, c, a, r1, r2⟩ := env
  revert v f c a r1 r2
  decide

/-- C6 (counter-evidence): when the extractor reports silence, the format is
amplifiable, and `_amplify_track`'s subprocess invocation raises after its
temporary `.wav` exists (for instance the ffmpeg binary is missing), the
rendering is never unlinked: the helper's `except` handler (line 444) returns
`None` without cleanup, and the caller's `finally` (lines 412-414) skips
deletion because `amplified_path` is `None`.  The call still succeeds with
the synthetic silent tree, and the extractor-output temporary is cleaned up —
the leak is exactly the amplified rendering. -/
theorem C6_amplify_exception_leaks_rendering :
    ((extract_features ⟨false, true, true, AmplifyOutcome.raisesAfterCreate,
        RunOutcome.exitNonzero true, RunOutcome.exitZero true⟩).2.contains
        Event.createTmpWav = true) ∧
    ((extract_features ⟨false, true, true, AmplifyOutcome.raisesAfterCreate,
        RunOutcome.exitNonzero true, RunOutcome.exitZero true⟩).2.contains
        Event.deleteTmpWav = false) ∧
    ((extract_features ⟨false, true, true, AmplifyOutcome.raisesAfterCreate,
        RunOutcome.exitNonzero true, RunOutcome.exitZero true⟩).2.count
        Event.createTmpJson
      = (extract_features ⟨false, true, true, AmplifyOutcome.raisesAfterCreate,
        RunOutcome.exitNonzero true, RunOutcome.exitZero true⟩).2.count
        Event.deleteTmpJson) ∧
    (extract_features ⟨false, true, true, AmplifyOutcome.raisesAfterCreate,
        RunOutcome.exitNonzero true, RunOutcome.exitZero true⟩).1
      = (some Features.silentTree, none) := by
  decide

/-!
Model of `PCAComputer.extract_transformation_weights` (lines 755-822) and
`DatabaseManager.insert_pca_transformations` (lines 1500-1559).

The fitted state mirrors what `fit_pca_on_library` leaves in the instance:
per discriminator the feature-name list and the component count, plus the
fitted numeric artifacts.  The numpy arrays (`pca.components_`,
`scaler.mean_`, `scaler.scale_`) are abstracted as total functions — every
index the Python code uses lies within the fixed shapes.
-/

/-- One row of the `pca_transformations` table:
`(component, feature_index, feature_name, weight, mean, scale)`. -/
structure WeightRow where
  component : String
  feature_index : Nat
  feature_name : String
  weight : F
  mean : F
  scale : F
  deriving DecidableEq

/-- Fitted artifacts of one domain discriminator
(`self.discriminators[domain]`). -/
structure FittedDisc where
  n_components : Nat
  feature_indices : List String
  components_ : Nat → Nat → F
  scaler_mean : Nat → F
  scaler_scale : Nat → F

/-- Fitted state of `PCAComputer` after `fit_pca_on_library`. -/
structure PCAState where
  core_indices : List String
  scaler_mean : Nat → F
  scaler_scale : Nat → F
  primary_components : Nat → Nat → F
  tonal : FittedDisc
  spectral : FittedDisc
  rhythmic : FittedDisc

/-- The fixed 18 core feature names (`__init__`, lines 630-636). -/
def core_indices : List String :=
  ["bpm", "danceability", "onset_rate", "beat_punch",
   "tonal_clarity", "tuning_purity", "fifths_strength",
   "chord_strength", "chord_change_rate", "crest", "entropy",
   "spectral_centroid", "spectral_rolloff", "spectral_kurtosis",
   "spectral_energy", "spectral_flatness", "sub_drive", "air_sizzle"]

/-- The fixed tonal feature subset (`__init__`, lines 640-641). -/
def domain_indices_tonal : List String :=
  ["tonal_clarity", "tuning_purity", "fifths_strength",
   "chord_strength", "chord_change_rate", "crest", "entropy"]

/-- The fixed spectral feature subset (`__init__`, lines 642-643). -/
def domain_indices_spectral : List String :=
  ["spectral_centroid", "spectral_rolloff", "spectral_kurtosis",
   "spectral_energy", "spectral_flatness", "sub_drive", "air_sizzle"]

/-- The fixed rhythmic feature subset (`__init__`, line 644). -/
def domain_indices_rhythmic : List String :=
  ["bpm", "danceability", "onset_rate", "beat_punch"]

/-- Rows of the primary discriminator (lines 767-785): one row per core
feature, component name `"primary_d"`, weights from `components_[0]` and the
global scaler's mean/scale. -/
def primary_rows (st : PCAState) : List WeightRow :=
  st.core_indices.enum.map fun p =>
    ⟨"primary_d", p.1, p.2, st.primary_components 0 p.1,
      st.scaler_mean p.1, st.scaler_scale p.1⟩

/-- Rows of one domain discriminator (lines 797-812): for each component
index the component name is `domain ++ "_pc" ++ (index+1)`, and one row per
feature of the domain's fixed list. -/
def domain_rows (dn : String) (d : FittedDisc) : List WeightRow :=
  (List.range d.n_components).flatMap fun ci =>
    d.feature_indices.enum.map fun p =>
      ⟨dn ++ "_pc" ++ toString (ci + 1), p.1, p.2, d.components_ ci p.1,
        d.scaler_mean p.1, d.scaler_scale p.1⟩

/-- `extract_transformation_weights` (lines 755-822): primary rows then the
domain rows in the hard-coded order tonal, spectral, rhythmic (line 788). -/
def extract_transformation_weights (st : PCAState) : List WeightRow :=
  primary_rows st ++ domain_rows "tonal" st.tonal ++ domain_rows "spectral" st.spectral
    ++ domain_rows "rhythmic" st.rhythmic

/-- Tail of `extract_transformation_weights` (lines 816-822): the count check
only logs — the second component is whether the warning fired — and the rows
are returned unconditionally; the function has no raise path. -/
def extract_weights_result (st : PCAState) : List WeightRow × Bool :=
  (extract_transformation_weights st, (extract_transformation_weights st).length != 72)

/-- The fixed feature-order list of each discriminator component name, from
the `__init__` constants; `none` for an unknown component. -/
def fixed_feature_order (c : String) : Option (List String) :=
  if c = "primary_d" then some core_indices
  else if c = "tonal_pc1" ∨ c = "tonal_pc2" ∨ c = "tonal_pc3" then some domain_indices_tonal
  else if c = "spectral_pc1" ∨ c = "spectral_pc2" ∨ c = "spectral_pc3" then
    some domain_indices_spectral
  else if c = "rhythmic_pc1" ∨ c = "rhythmic_pc2" ∨ c = "rhythmic_pc3" then
    some domain_indices_rhythmic
  else none

/-- The identifying triple of a weight row (component, feature_index,
feature_name); the numeric payload is irrelevant to the shape claims. -/
def row_key (r : WeightRow) : String × Nat × String :=
  (r.component, r.feature_index, r.feature_name)

/-- The 72 expected key triples, in export order. -/
def expected_weight_keys : List (String × Nat × String) :=
  [("primary_d", 0, "bpm"),
   ("primary_d", 1, "danceability"),
   ("primary_d", 2, "onset_rate"),
   ("primary_d", 3, "beat_punch"),
   ("primary_d", 4, "tonal_clarity"),
   ("primary_d", 5, "tuning_purity"),
   ("primary_d", 6, "fifths_strength"),
   ("primary_d", 7, "chord_strength"),
   ("primary_d", 8, "chord_change_rate"),
   ("primary_d", 9, "crest"),
   ("primary_d", 10, "entropy"),
   ("primary_d", 11, "spectral_centroid"),
   ("primary_d", 12, "spectral_rolloff"),
   ("primary_d", 13, "spectral_kurtosis"),
   ("primary_d", 14, "spectral_energy"),
   ("primary_d", 15, "spectral_flatness"),
   ("primary_d", 16, "sub_drive"),
   ("primary_d", 17, "air_sizzle"),
   ("tonal_pc1", 0, "tonal_clarity"),
   ("tonal_pc1", 1, "tuning_purity"),
   ("tonal_pc1", 2, "fifths_strength"),
   ("tonal_pc1", 3, "chord_strength"),
   ("tonal_pc1", 4, "chord_change_rate"),
   ("tonal_pc1", 5, "crest"),
   ("tonal_pc1", 6, "entropy"),
   ("tonal_pc2", 0, "tonal_clarity"),
   ("tonal_pc2", 1, "tuning_purity"),
   ("tonal_pc2", 2, "fifths_strength"),
   ("tonal_pc2", 3, "chord_strength"),
   ("tonal_pc2", 4, "chord_change_rate"),
   ("tonal_pc2", 5, "crest"),
   ("tonal_pc2", 6, "entropy"),
   ("tonal_pc3", 0, "tonal_clarity"),
   ("tonal_pc3", 1, "tuning_purity"),
   ("tonal_pc3", 2, "fifths_strength"),
   ("tonal_pc3", 3, "chord_strength"),
   ("tonal_pc3", 4, "chord_change_rate"),
   ("tonal_pc3", 5, "crest"),
   ("tonal_pc3", 6, "entropy"),
   ("spectral_pc1", 0, "spectral_centroid"),
   ("spectral_pc1", 1, "spectral_rolloff"),
   ("spectral_pc1", 2, "spectral_kurtosis"),
   ("spectral_pc1", 3, "spectral_energy"),
   ("spectral_pc1", 4, "spectral_flatness"),
   ("spectral_pc1", 5, "sub_drive"),
   ("spectral_pc1", 6, "air_sizzle"),
   ("spectral_pc2", 0, "spectral_centroid"),
   ("spectral_pc2", 1, "spectral_rolloff"),
   ("spectral_pc2", 2, "spectral_kurtosis"),
   ("spectral_pc2", 3, "spectral_energy"),
   ("spectral_pc2", 4, "spectral_flatness"),
   ("spectral_pc2", 5, "sub_drive"),
   ("spectral_pc2", 6, "air_sizzle"),
   ("spectral_pc3", 0, "spectral_centroid"),
   ("spectral_pc3", 1, "spectral_rolloff"),
   ("spectral_pc3", 2, "spectral_kurtosis"),
   ("spectral_pc3", 3, "spectral_energy"),
   ("spectral_pc3", 4, "spectral_flatness"),
   ("spectral_pc3", 5, "sub_drive"),
   ("spectral_pc3", 6, "air_sizzle"),
   ("rhythmic_pc1", 0, "bpm"),
   ("rhythmic_pc1", 1, "danceability"),
   ("rhythmic_pc1", 2, "onset_rate"),
   ("rhythmic_pc1", 3, "beat_punch"),
   ("rhythmic_pc2", 0, "bpm"),
   ("rhythmic_pc2", 1, "danceability"),
   ("rhythmic_pc2", 2, "onset_rate"),
   ("rhythmic_pc2", 3, "beat_punch"),
   ("rhythmic_pc3", 0, "bpm"),
   ("rhythmic_pc3", 1, "danceability"),
   ("rhythmic_pc3", 2, "onset_rate"),
   ("rhythmic_pc3", 3, "beat_punch")]

/-- Boolean form of "the row's `feature_index` is the position of its
`feature_name` in that discriminator's fixed feature-order list". -/
def key_indexed (k : String × Nat × String) : Bool :=
  match fixed_feature_order k.1 with
  | none => false
  | some L => L.get? k.2.1 == some k.2.2

/-- Projecting a constructed row to its key discards the numeric payload. -/
theorem row_key_comp (c : String) (g h e : Nat → F) :
    (row_key ∘ fun p : Nat × String => (⟨c, p.1, p.2, g p.1, h p.1, e p.1⟩ : WeightRow))
      = fun p : Nat × String => (c, p.1, p.2) := rfl

theorem key_indexed_spec (k : String × Nat × String) (h : key_indexed k = true) :
    ∃ L, fixed_feature_order k.1 = some L ∧ L.get? k.2.1 = some k.2.2 := by
  unfold key_indexed at h
  cases hf : fixed_feature_order k.1 with
  | none => rw [hf] at h; simp at h
  | some L =>
      rw [hf] at h
      simp only [beq_iff_eq] at h
      exact ⟨L, rfl, h⟩

/-- With the fixed configuration, the export's key triples are exactly the 72
expected ones, in order. -/
theorem extract_transformation_weights_keys (st : PCAState)
    (h1 : st.core_indices = core_indices)
    (h2 : st.tonal.feature_indices = domain_indices_tonal)
    (h3 : st.spectral.feature_indices = domain_indices_spectral)
    (h4 : st.rhythmic.feature_indices = domain_indices_rhythmic)
    (h5 : st.tonal.n_components = 3)
    (h6 : st.spectral.n_components = 3)
    (h7 : st.rhythmic.n_components = 3) :
    (extract_transformation_weights st).map row_key = expected_weight_keys := by
  unfold extract_transformation_weights primary_rows domain_rows
  rw [h1, h2, h3, h4, h5, h6, h7]
  simp only [List.map_append, List.map_flatMap, List.map_map, row_key_comp]
  decide

/-- C1: for every fitted library with the fixed configuration (the 18-name
core list, the fixed tonal/spectral/rhythmic subsets, 3 components per
domain), `extract_transformation_weights` returns exactly 72 rows — 18 for
`primary_d`, 7×3 for tonal, 7×3 for spectral, 4×3 for rhythmic — and every
row's `feature_index` is the position of its `feature_name` in that
discriminator's fixed feature-order list. -/
theorem C1_weight_export_72_rows (st : PCAState)
    (h1 : st.core_indices = core_indices)
    (h2 : st.tonal.feature_indices = domain_indices_tonal)
    (h3 : st.spectral.feature_indices = domain_indices_spectral)
    (h4 : st.rhythmic.feature_indices = domain_indices_rhythmic)
    (h5 : st.tonal.n_components = 3)
    (h6 : st.spectral.n_components = 3)
    (h7 : st.rhythmic.n_components = 3) :
    (extract_transformation_weights st).length = 72 ∧
    ((extract_transformation_weights st).filter
        (fun r => r.component == "primary_d")).length = 18 ∧
    ((extract_transformation_weights st).filter
        (fun r => r.component == "tonal_pc1")).length = 7 ∧
    ((extract_transformation_weights st).filter
        (fun r => r.component == "tonal_pc2")).length = 7 ∧
    ((extract_transformation_weights st).filter
        (fun r => r.component == "tonal_pc3")).length = 7 ∧
    ((extract_transformation_weights st).filter
        (fun r => r.component == "spectral_pc1")).length = 7 ∧
    ((extract_transformation_weights st).filter
        (fun r => r.component == "spectral_pc2")).length = 7 ∧
    ((extract_transformation_weights st).filter
        (fun r => r.component == "spectral_pc3")).length = 7 ∧
    ((extract_transformation_weights st).filter
        (fun r => r.component == "rhythmic_pc1")).length = 4 ∧
    ((extract_transformation_weights st).filter
        (fun r => r.component == "rhythmic_pc2")).length = 4 ∧
    ((extract_transformation_weights st).filter
        (fun r => r.component == "rhythmic_pc3")).length = 4 ∧
    ∀ r ∈ extract_transformation_weights st, ∃ L,
      fixed_feature_order r.component = some L ∧ L.get? r.feature_index = some r.feature_name := by
  have hkeys := extract_transformation_weights_keys st h1 h2 h3 h4 h5 h6 h7
  have hfil : ∀ c : String,
      ((extract_transformation_weights st).filter (fun r => r.component == c)).length
        = (((extract_transformation_weights st).map row_key).filter
            (fun k => k.1 == c)).length := by
    intro c
    rw [List.filter_map, List.length_map]
    rfl
  have hlen : (extract_transformation_weights st).length = 72 := by
    have h := congrArg List.length hkeys
    rw [List.length_map] at h
    rw [h]
    rfl
  refine ⟨hlen, ?_, ?_, ?_, ?_, ?_, ?_, ?_, ?_, ?_, ?_, ?_⟩
  · rw [hfil "primary_d", hkeys]; decide
  · rw [hfil "tonal_pc1", hkeys]; decide
  · rw [hfil "tonal_pc2", hkeys]; decide
  · rw [hfil "tonal_pc3", hkeys]; decide
  · rw [hfil "spectral_pc1", hkeys]; decide
  · rw [hfil "spectral_pc2", hkeys]; decide
  · rw [hfil "spectral_pc3", hkeys]; decide
  · rw [hfil "rhythmic_pc1", hkeys]; decide
  · rw [hfil "rhythmic_pc2", hkeys]; decide
  · rw [hfil "rhythmic_pc3", hkeys]; decide
  · intro r hr
    have hk : row_key r ∈ (extract_transformation_weights st).map row_key :=
      List.mem_map_of_mem row_key hr
    rw [hkeys] at hk
    have hall : ∀ k ∈ expected_weight_keys, key_indexed k = true := by decide
    exact key_indexed_spec (row_key r) (hall _ hk)

/-- Witness for C1 at a concrete fitted state with zero loadings. -/
theorem C1_weight_export_72_rows_witness :
    (extract_transformation_weights
      ⟨core_indices, (fun _ => F.ofInt 0), (fun _ => F.ofInt 0), (fun _ _ => F.ofInt 0),
        ⟨3, domain_indices_tonal, (fun _ _ => F.ofInt 0), (fun _ => F.ofInt 0),
          (fun _ => F.ofInt 0)⟩,
        ⟨3, domain_indices_spectral, (fun _ _ => F.ofInt 0), (fun _ => F.ofInt 0),
          (fun _ => F.ofInt 0)⟩,
        ⟨3, domain_indices_rhythmic, (fun _ _ => F.ofInt 0), (fun _ => F.ofInt 0),
          (fun _ => F.ofInt 0)⟩⟩).length = 72 :=
  (C1_weight_export_72_rows _ rfl rfl rfl rfl rfl rfl rfl).1

/-- `insert_pca_transformations` (lines 1500-1559) as a state transformer on
the `pca_transformations` table: DELETE every row, insert the supplied rows,
COMMIT, then verify.  The `ValueError` (line 1558-1559) fires only when the
row count found after the commit differs from the supplied count — which the
relational model makes impossible — and even then the rows would already be
committed.  First component: table contents after the call; second: the
raised error, if any. -/
def insert_pca_transformations (table : List WeightRow) (weights : List WeightRow) :
    List WeightRow × Option String :=
  let newTable := weights
  (newTable, if newTable.length ≠ weights.length then some "Insertion mismatch" else none)

/-- C2 (counterexample): a fitted state whose tonal discriminator carries six
features makes the export produce 69 rows; the count check only sets the
logged warning — nothing raises — and `insert_pca_transformations` persists
the 69 rows without error: the count mismatch is not fatal and the
wrong-count state is persisted. -/
theorem C2_count_mismatch_only_warns_counterexample :
    (extract_transformation_weights
        ⟨core_indices, (fun _ => F.ofInt 0), (fun _ => F.ofInt 0), (fun _ _ => F.ofInt 0),
          ⟨3, ["tonal_clarity", "tuning_purity", "fifths_strength", "chord_strength",
              "chord_change_rate", "crest"], (fun _ _ => F.ofInt 0), (fun _ => F.ofInt 0),
            (fun _ => F.ofInt 0)⟩,
          ⟨3, domain_indices_spectral, (fun _ _ => F.ofInt 0), (fun _ => F.ofInt 0),
            (fun _ => F.ofInt 0)⟩,
          ⟨3, domain_indices_rhythmic, (fun _ _ => F.ofInt 0), (fun _ => F.ofInt 0),
            (fun _ => F.ofInt 0)⟩⟩).length = 69 ∧
    (extract_weights_result
        ⟨core_indices, (fun _ => F.ofInt 0), (fun _ => F.ofInt 0), (fun _ _ => F.ofInt 0),
          ⟨3, ["tonal_clarity", "tuning_purity", "fifths_strength", "chord_strength",
              "chord_change_rate", "crest"], (fun _ _ => F.ofInt 0), (fun _ => F.ofInt 0),
            (fun _ => F.ofInt 0)⟩,
          ⟨3, domain_indices_spectral, (fun _ _ => F.ofInt 0), (fun _ => F.ofInt 0),
            (fun _ => F.ofInt 0)⟩,
          ⟨3, domain_indices_rhythmic, (fun _ _ => F.ofInt 0), (fun _ => F.ofInt 0),
            (fun _ => F.ofInt 0)⟩⟩).2 = true ∧
    (insert_pca_transformations []
        (extract_transformation_weights
          ⟨core_indices, (fun _ => F.ofInt 0), (fun _ => F.ofInt 0), (fun _ _ => F.ofInt 0),
            ⟨3, ["tonal_clarity", "tuning_purity", "fifths_strength", "chord_strength",
                "chord_change_rate", "crest"], (fun _ _ => F.ofInt 0), (fun _ => F.ofInt 0),
              (fun _ => F.ofInt 0)⟩,
            ⟨3, domain_indices_spectral, (fun _ _ => F.ofInt 0), (fun _ => F.ofInt 0),
              (fun _ => F.ofInt 0)⟩,
            ⟨3, domain_indices_rhythmic, (fun _ _ => F.ofInt 0), (fun _ => F.ofInt 0),
              (fun _ => F.ofInt 0)⟩⟩)).2 = none ∧
    (insert_pca_transformations []
        (extract_transformation_weights
          ⟨core_indices, (fun _ => F.ofInt 0), (fun _ => F.ofInt 0), (fun _ _ => F.ofInt 0),
            ⟨3, ["tonal_clarity", "tuning_purity", "fifths_strength", "chord_strength",
                "chord_change_rate", "crest"], (fun _ _ => F.ofInt 0), (fun _ => F.ofInt 0),
              (fun _ => F.ofInt 0)⟩,
            ⟨3, domain_indices_spectral, (fun _ _ => F.ofInt 0), (fun _ => F.ofInt 0),
              (fun _ => F.ofInt 0)⟩,
            ⟨3, domain_indices_rhythmic, (fun _ _ => F.ofInt 0), (fun _ => F.ofInt 0),
              (fun _ => F.ofInt 0)⟩⟩)).1
      = extract_transformation_weights
          ⟨core_indices, (fun _ => F.ofInt 0), (fun _ => F.ofInt 0), (fun _ _ => F.ofInt 0),
            ⟨3, ["tonal_clarity", "tuning_purity", "fifths_strength", "chord_strength",
                "chord_change_rate", "crest"], (fun _ _ => F.ofInt 0), (fun _ => F.ofInt 0),
              (fun _ => F.ofInt 0)⟩,
            ⟨3, domain_indices_spectral, (fun _ _ => F.ofInt 0), (fun _ => F.ofInt 0),
              (fun _ => F.ofInt 0)⟩,
            ⟨3, domain_indices_rhythmic, (fun _ _ => F.ofInt 0), (fun _ => F.ofInt 0),
              (fun _ => F.ofInt 0)⟩⟩ := by
  refine ⟨by decide, by decide, by decide, rfl⟩

/-- C2 (amended): a weight count different from 72 only raises the logged
warning flag — the export itself has no raise path — and
`insert_pca_transformations` persists whatever rows are supplied (replacing
the previous table contents), its `ValueError` firing only on a persisted
count differing from the supplied count, which never happens: no count
mismatch is fatal and the rows are persisted regardless. -/
theorem C2_count_mismatch_warns_and_persists (st : PCAState) (table : List WeightRow) :
    (extract_weights_result st).1 = extract_transformation_weights st ∧
    ((extract_weights_result st).2 = true ↔ (extract_transformation_weights st).length ≠ 72) ∧
    insert_pca_transformations table (extract_transformation_weights st)
      = (extract_transformation_weights st, none) := by
  refine ⟨rfl, ?_, ?_⟩
  · unfold extract_weights_result
    simp [bne_iff_ne]
  · unfold insert_pca_transformations
    simp

/-!
Model of `PCAComputer.validate_pca_integrity` (lines 930-1063).

Inputs: the database records (`SELECT identifier, primary_d, ... FROM
music_analysis WHERE primary_d IS NOT NULL`) and the freshly computed
`computed_df` rows — both lists of identifier/column-vector pairs, the
identifier an opaque key with decidable equality.  `pandas.merge` with
default arguments is an inner join on `identifier`.  The literal `99.9` is
modeled as the exact 999/10 (the double it denotes differs by under 6e-15,
on neither side of any comparison the claims exercise) and `tolerance =
1e-10` as the exact 10⁻¹⁰. -/

/-- The ten projected-value columns of one record, in query order
(lines 962-968). -/
structure PCACols where
  primary_d : F
  tonal_pc1 : F
  tonal_pc2 : F
  tonal_pc3 : F
  spectral_pc1 : F
  spectral_pc2 : F
  spectral_pc3 : F
  rhythmic_pc1 : F
  rhythmic_pc2 : F
  rhythmic_pc3 : F
  deriving DecidableEq

/-- Column accessors in validation order: `primary_d` first (line 992), then
the domain components (lines 1015-1019). -/
def pca_columns : List (PCACols → F) :=
  [(·.primary_d), (·.tonal_pc1), (·.tonal_pc2), (·.tonal_pc3),
   (·.spectral_pc1), (·.spectral_pc2), (·.spectral_pc3),
   (·.rhythmic_pc1), (·.rhythmic_pc2), (·.rhythmic_pc3)]

/-- `tolerance = 1e-10` (line 973). -/
def tolerance : F := ⟨1, 10000000000⟩

/-- `db_df.merge(computed_df, on='identifier')`: inner join — every database
row paired with every computed row carrying the same identifier, in left
order; rows present on only one side contribute nothing. -/
def merge_on_identifier {ι : Type} [DecidableEq ι]
    (db computed : List (ι × PCACols)) : List (PCACols × PCACols) :=
  db.flatMap fun r => (computed.filter fun c => decide (c.1 = r.1)).map fun c => (r.2, c.2)

/-- `matches = np.sum(diff < tolerance)` for one column (lines 995-997). -/
def matches_within_tolerance (merged : List (PCACols × PCACols)) (col : PCACols → F) : Nat :=
  (merged.filter fun rc => F.blt (F.pyabs (F.sub (col rc.1) (col rc.2))) tolerance).length

/-- One column's pass condition `match_pct > 99.9` with
`match_pct = matches / total * 100` (lines 998-1005). -/
def column_passes (merged : List (PCACols × PCACols)) (col : PCACols → F) : Bool :=
  F.blt ⟨999, 10⟩
    (F.mul (F.div (F.ofInt (matches_within_tolerance merged col))
      (F.ofInt merged.length)) (F.ofInt 100))

deriving instance DecidableEq for Except

/-- `validate_pca_integrity`: inner join, `ValueError` on empty overlap
(lines 989-990), per-column checks accumulated into `all_passed`, final
`ValueError` when any failed (lines 1053-1054), `True` otherwise. -/
def validate_pca_integrity {ι : Type} [DecidableEq ι]
    (db computed : List (ι × PCACols)) : Except String Bool :=
  if (merge_on_identifier db computed).isEmpty then
    Except.error "No overlapping identifiers between computed PCA data and database records"
  else if pca_columns.all fun col => column_passes (merge_on_identifier db computed) col then
    Except.ok true
  else
    Except.error "PCA integrity validation failed: computed values do not match database values"

/-- The exact match percentage of one column, in `ℚ`. -/
theorem column_passes_false_iff (merged : List (PCACols × PCACols))
    (h : merged ≠ []) (col : PCACols → F) :
    column_passes merged col = false ↔
      (matches_within_tolerance merged col : ℚ) / (merged.length : ℚ) * 100 ≤ 999 / 10 := by
  have htot : (merged.length : Int) ≠ 0 := by
    have hp := List.length_pos.mpr h
    omega
  have hdivWF : (F.div (F.ofInt (matches_within_tolerance merged col))
      (F.ofInt merged.length)).WF :=
    F.WF.div (F.WF_ofInt _) htot
  have hXWF : (F.mul (F.div (F.ofInt (matches_within_tolerance merged col))
      (F.ofInt merged.length)) (F.ofInt 100)).WF :=
    F.WF.mul hdivWF (F.WF_ofInt 100)
  have h999WF : (⟨999, 10⟩ : F).WF := by decide
  unfold column_passes
  rw [F.blt_eq_false_iff_toRat h999WF hXWF]
  rw [F.toRat_mul, F.toRat_div (F.WF_ofInt _) (F.WF_ofInt _) htot]
  rw [F.toRat_ofInt, F.toRat_ofInt, F.toRat_ofInt]
  have h999 : ((⟨999, 10⟩ : F)).toRat = 999 / 10 := by
    norm_num [F.toRat]
  rw [h999]
  push_cast
  exact Iff.rfl

/-- C3 (amended): the validator raises if and only if either no identifier
overlaps between the two sides, or some column's within-1e-10 match share is
at most 99.9% (the pass bar is strictly more than 99.9%, so exactly 99.9% is
a failure); tracks present on only one side are ignored by the inner join;
and when no raise happens the function returns `True`. -/
theorem C3_validate_error_iff {ι : Type} [DecidableEq ι]
    (db computed : List (ι × PCACols)) :
    ((∃ msg, validate_pca_integrity db computed = Except.error msg) ↔
      (merge_on_identifier db computed = [] ∨
        ∃ col ∈ pca_columns,
          (matches_within_tolerance (merge_on_identifier db computed) col : ℚ)
            / ((merge_on_identifier db computed).length : ℚ) * 100 ≤ 999 / 10)) ∧
    ((¬ ∃ msg, validate_pca_integrity db computed = Except.error msg) →
      validate_pca_integrity db computed = Except.ok true) ∧
    (∀ r : ι × PCACols, (∀ c ∈ computed, c.1 ≠ r.1) →
      merge_on_identifier (db ++ [r]) computed = merge_on_identifier db computed) := by
  refine ⟨?_, ?_, ?_⟩
  · by_cases he : (merge_on_identifier db computed).isEmpty = true
    · constructor
      · intro _
        exact Or.inl (List.isEmpty_iff.mp he)
      · intro _
        exact ⟨_, by unfold validate_pca_integrity; rw [if_pos he]⟩
    · have hne : merge_on_identifier db computed ≠ [] := fun hh => he (by simp [hh])
      by_cases hall : (pca_columns.all fun col =>
          column_passes (merge_on_identifier db computed) col) = true
      · have hok : validate_pca_integrity db computed = Except.ok true := by
          unfold validate_pca_integrity
          rw [if_neg he, if_pos hall]
        constructor
        · rintro ⟨msg, hmsg⟩
          rw [hok] at hmsg
          cases hmsg
        · rintro (hempty | ⟨col, hcol, hle⟩)
          · exact absurd hempty hne
          · have hp := List.all_eq_true.mp hall col hcol
            have hfalse := (column_passes_false_iff _ hne col).mpr hle
            rw [hp] at hfalse
            cases hfalse
      · have herr : validate_pca_integrity db computed = Except.error
            "PCA integrity validation failed: computed values do not match database values" := by
          unfold validate_pca_integrity
          rw [if_neg he, if_neg hall]
        constructor
        · intro _
          right
          have hex : ∃ col ∈ pca_columns,
              column_passes (merge_on_identifier db computed) col = false := by
            by_contra hcon
            push_neg at hcon
            apply hall
            apply List.all_eq_true.mpr
            intro col hcol
            cases hcp : column_passes (merge_on_identifier db computed) col
            · exact absurd hcp (hcon col hcol)
            · rfl
          obtain ⟨col, hcol, hfalse⟩ := hex
          exact ⟨col, hcol, (column_passes_false_iff _ hne col).mp hfalse⟩
        · intro _
          exact ⟨_, herr⟩
  · intro hno
    by_cases he : (merge_on_identifier db computed).isEmpty = true
    · exact absurd ⟨_, by unfold validate_pca_integrity; rw [if_pos he]⟩ hno
    · by_cases hall : (pca_columns.all fun col =>
          column_passes (merge_on_identifier db computed) col) = true
      · unfold validate_pca_integrity
        rw [if_neg he, if_pos hall]
      · exact absurd ⟨_, by unfold validate_pca_integrity; rw [if_neg he, if_neg hall]⟩ hno
  · intro r hr
    unfold merge_on_identifier
    rw [List.flatMap_append]
    have hfil : computed.filter (fun c => decide (c.1 = r.1)) = [] := by
      rw [List.filter_eq_nil_iff]
      intro c hc
      simp [hr c hc]
    simp [hfil]

/-- All-zero column vector. -/
def pcaZero : PCACols :=
  ⟨⟨0, 1⟩, ⟨0, 1⟩, ⟨0, 1⟩, ⟨0, 1⟩, ⟨0, 1⟩, ⟨0, 1⟩, ⟨0, 1⟩, ⟨0, 1⟩, ⟨0, 1⟩, ⟨0, 1⟩⟩

/-- Column vector with `primary_d = 1`, all other columns 0. -/
def pcaOne : PCACols :=
  ⟨⟨1, 1⟩, ⟨0, 1⟩, ⟨0, 1⟩, ⟨0, 1⟩, ⟨0, 1⟩, ⟨0, 1⟩, ⟨0, 1⟩, ⟨0, 1⟩, ⟨0, 1⟩, ⟨0, 1⟩⟩

/-- Database side of the 99.9% boundary example: one record for track `0`
with `primary_d = 1`, nine records for track `1` with `primary_d = 0`. -/
def validationDb : List (ℕ × PCACols) := (0, pcaOne) :: List.replicate 9 (1, pcaZero)

/-- Computed side: for track `0` nine rows with `primary_d = 1` and one with
`primary_d = 0`; for track `1`, 110 rows matching the database.  The inner
join yields 1000 pairs of which exactly 999 agree within 1e-10 on
`primary_d`: `match_pct` is exactly 99.9%. -/
def validationComputed : List (ℕ × PCACols) :=
  List.replicate 9 (0, pcaOne) ++ [(0, pcaZero)] ++ List.replicate 110 (1, pcaZero)

/-- C3 (counterexample to the claim as stated): on the boundary library the
overlap is nonempty and no column has fewer than 99.9% of its compared
values within 1e-10 — `primary_d` sits at exactly 99.9% — yet
`validate_pca_integrity` raises, because the code's pass bar is the strict
`match_pct > 99.9`. -/
theorem C3_boundary_counterexample :
    (∃ msg, validate_pca_integrity validationDb validationComputed = Except.error msg) ∧
    merge_on_identifier validationDb validationComputed ≠ [] ∧
    (∀ col ∈ pca_columns,
      ¬ ((matches_within_tolerance
            (merge_on_identifier validationDb validationComputed) col : ℚ)
          / ((merge_on_identifier validationDb validationComputed).length : ℚ) * 100
          < 999 / 10)) := by
  refine ⟨⟨"PCA integrity validation failed: computed values do not match database values",
    by decide⟩, by decide, ?_⟩
  have hm : ∀ col ∈ pca_columns,
      999 ≤ matches_within_tolerance
        (merge_on_identifier validationDb validationComputed) col := by
    decide
  have hl : (merge_on_identifier validationDb validationComputed).length = 1000 := by
    decide
  intro col hc
  have h999 := hm col hc
  rw [hl]
  intro hlt
  have hq : (999 : ℚ) ≤ (matches_within_tolerance
      (merge_on_identifier validationDb validationComputed) col : ℚ) := by
    exact_mod_cast h999
  have : (999 : ℚ) / 10 ≤ (matches_within_tolerance
      (merge_on_identifier validationDb validationComputed) col : ℚ) / 1000 * 100 := by
    rw [div_mul_eq_mul_div, le_div_iff₀ (by norm_num : (0:ℚ) < 1000)]
    linarith
  linarith

/-- Witness for C3's inner-join clause at a concrete one-sided row. -/
theorem C3_validate_error_iff_witness :
    merge_on_identifier (([] : List (ℕ × PCACols)) ++ [(0, pcaZero)]) []
      = merge_on_identifier ([] : List (ℕ × PCACols)) [] :=
  (C3_validate_error_iff [] []).2.2 (0, pcaZero) (by decide)

/-!
Model of `PCAComputer.calibrate_resolution_controls` (lines 824-928).

Inputs: the per-discriminator projected values (`discriminator_data`,
lines 840-845) as lists of coordinate vectors.  `sklearn` computes Euclidean
distances; the model sorts and ring-tests on squared distances, which is
equivalent (all quantities nonnegative) and keeps everything in exact
rational arithmetic.  The 50 grid points `np.logspace(-2, 0.5, 50)`
(line 886) are embedded through their shortest round-trip decimal
representations; each differs from the exact double by under half an ulp,
far inside every margin the proofs use.
-/

/-- Decimal fraction `n / 10^e`. -/
def dec (n : Int) (e : Nat) : F := ⟨n, 10 ^ e⟩

/-- `x_candidates = np.logspace(-2, 0.5, 50)` (line 886). -/
def x_candidates : List F :=
  [dec 1 2,
   dec 11246578221198195 18,
   dec 12648552168552958 18,
   dec 14225293134853698 18,
   dec 15998587196060583 18,
   dec 17992936232915525 18,
   dec 20235896477251575 18,
   dec 22758459260747887 18,
   dec 25595479226995357 18,
   dec 28786155923545685 18,
   dec 32374575428176434 18,
   dec 3641031949310673 17,
   dec 40949150623804255 18,
   dec 4605378255822414 17,
   dec 5179474679231213 17,
   dec 5825136712468927 17,
   dec 655128556859551 16,
   dec 736795455966163 16,
   dec 8286427728546843 17,
   dec 9319395762340775 17,
   dec 10481131341546858 17,
   dec 11787686347935872 17,
   dec 13257113655901087 17,
   dec 14909716571840645 17,
   dec 16768329368110083 17,
   dec 18858632787726495 17,
   dec 21209508879201905 17,
   dec 23853440064314202 17,
   dec 2682695795279726 16,
   dec 3017114810529294 16,
   dec 3393221771895328 16,
   dec 3816213407949357 16,
   dec 42919342601287785 17,
   dec 4826957437677871 16,
   dec 5428675439323859 16,
   dec 6105402296585329 16,
   dec 6866488450043002 16,
   dec 7722449945836258 16,
   dec 8685113737513525 16,
   dec 9767781100894892 16,
   dec 10985411419875584 16,
   dec 1235482888256747 15,
   dec 13894954943731375 16,
   dec 15627069765469948 16,
   dec 17575106248547911 16,
   dec 19765980717016347 16,
   dec 22229964825261956 16,
   dec 2500110382617931 15,
   dec 28117686979742307 16,
   dec 31622776601683795 16]

/-- Insert into a `ble`-sorted list, keeping it sorted. -/
def insert_sorted (x : F) : List F → List F
  | [] => [x]
  | y :: ys => if F.ble x y then x :: y :: ys else y :: insert_sorted x ys

/-- Insertion sort by `ble` (ascending). -/
def sort_ble : List F → List F
  | [] => []
  | x :: xs => insert_sorted x (sort_ble xs)

/-- Squared Euclidean distance between two coordinate vectors. -/
def sqdist (p q : List F) : F :=
  (List.zip p q).foldl
    (fun acc c => F.add acc (F.mul (F.sub c.1 c.2) (F.sub c.1 c.2))) (F.ofInt 0)

/-- `kneighbors` (line 899): the `k` smallest distances from the query point
to the fitted data (the query itself included), ascending — here as squared
distances. -/
def kneighbors (data : List (List F)) (query : List F) (k : Nat) : List F :=
  (sort_ble (data.map fun p => sqdist query p)).take k

/-- `np.sum((distances >= inner_radius) & (distances <= outer_radius))`
(lines 892-902) with `inner = 2x`, `outer = 3x`, tested on squares:
`(2x)² ≤ d² ∧ d² ≤ (3x)²`, equivalent for the nonnegative `x` of the grid. -/
def in_zone_count (sqdists : List F) (x : F) : Nat :=
  (sqdists.filter fun d2 =>
    F.ble (F.mul (F.mul (F.ofInt 4) x) x) d2 &&
      F.ble d2 (F.mul (F.mul (F.ofInt 9) x) x)).length

/-- Average captured percentage of candidate `x` over the query tracks
(lines 895-906): per query `in_zone / len(distances) * 100`, then `np.mean`. -/
def avg_percentage (data : List (List F)) (queries : List Nat) (k : Nat) (x : F) : F :=
  let pcts := queries.map fun qi =>
    let ds := kneighbors data (data.getD qi []) k
    F.mul (F.div (F.ofInt (in_zone_count ds x)) (F.ofInt ds.length)) (F.ofInt 100)
  F.div (pcts.foldl F.add (F.ofInt 0)) (F.ofInt pcts.length)

/-- The grid search (lines 887-912): `best_error` starts at infinity, so the
first candidate always wins the first comparison; afterwards only a strictly
smaller error (`if error < best_error`) replaces the incumbent.  Carries
`(best_x, best_error, best_avg_pct)`; `none` only for an empty grid. -/
def grid_best (cands : List F) (pct : F → F) (target : F) : Option (F × F × F) :=
  cands.foldl
    (fun acc x =>
      let p := pct x
      let e := F.pyabs (F.sub p target)
      match acc with
      | none => some (x, e, p)
      | some (bx, be, bp) => if F.blt e be then some (x, e, p) else some (bx, be, bp))
    none

/-- Calibration record of one (tier, discriminator) pair (lines 914-920). -/
structure CalibrationResult where
  best_x : F
  best_inner : F
  best_outer : F
  achieved_percentage : F
  error : F
  deriving DecidableEq

/-- One discriminator's calibration for one target percentage. -/
def calibrate_disc (data : List (List F)) (queries : List Nat) (k : Nat) (target : F) :
    Option CalibrationResult :=
  match grid_best x_candidates (fun x => avg_percentage data queries k x) target with
  | none => none
  | some (bx, be, bp) =>
      some ⟨bx, F.mul (F.ofInt 2) bx, F.mul (F.ofInt 3) bx, bp, be⟩

/-- Projected values of the four discriminator spaces (lines 840-845). -/
structure CalibrationState where
  primary_d : List (List F)
  tonal : List (List F)
  spectral : List (List F)
  rhythmic : List (List F)

/-- `np.linspace(0, n-1, min(15, n), dtype=int)` (lines 864-865): evenly
spaced values truncated to integers, here by the exact rational formula
`⌊(n-1)·i/(num-1)⌋`. -/
def test_indices (n : Nat) : List Nat :=
  let num := min 15 n
  if num ≤ 1 then List.range num
  else (List.range num).map fun i => (n - 1) * i / (num - 1)

/-- Calibrations of the four discriminators for one tier. -/
structure TierCalibration where
  primary_d : Option CalibrationResult
  tonal : Option CalibrationResult
  spectral : Option CalibrationResult
  rhythmic : Option CalibrationResult

/-- `calibrate_resolution_controls` (lines 824-928): `k = min(2000, n)`,
up to 15 evenly spaced query tracks, and the grid search per
(tier, discriminator) with targets 1%, 5%, 10%. -/
structure CalibrationResults where
  microscope : TierCalibration
  magnifying_glass : TierCalibration
  binoculars : TierCalibration

def calibrate_resolution_controls (st : CalibrationState) : CalibrationResults :=
  let n := st.primary_d.length
  let k := min 2000 n
  let queries := test_indices n
  let tier := fun (target : F) => TierCalibration.mk
    (calibrate_disc st.primary_d queries k target)
    (calibrate_disc st.tonal queries k target)
    (calibrate_disc st.spectral queries k target)
    (calibrate_disc st.rhythmic queries k target)
  ⟨tier (F.ofInt 1), tier (F.ofInt 5), tier (F.ofInt 10)⟩

/-- Fold invariant of the grid search: starting from an incumbent whose
candidate lies in `S`, the result is an incumbent whose candidate lies in
`S`, provided the remaining candidates do. -/
theorem grid_best_fold_mem (pct : F → F) (target : F) (S : List F) :
    ∀ (cands : List F) (acc : F × F × F),
      (acc.1 ∈ S) → (∀ c ∈ cands, c ∈ S) →
      ∃ bx be bp,
        cands.foldl
          (fun acc x =>
            let p := pct x
            let e := F.pyabs (F.sub p target)
            match acc with
            | none => some (x, e, p)
            | some (bx, be, bp) =>
                if F.blt e be then some (x, e, p) else some (bx, be, bp))
          (some acc) = some (bx, be, bp) ∧ bx ∈ S := by
  intro cands
  induction cands with
  | nil =>
    intro acc hacc _
    exact ⟨acc.1, acc.2.1, acc.2.2, rfl, hacc⟩
  | cons y ys ih =>
    intro acc hacc hsub
    rcases acc with ⟨bx, be, bp⟩
    simp only [List.foldl_cons]
    by_cases hblt : F.blt (F.pyabs (F.sub (pct y) target)) be
    · simp only [hblt, if_true]
      exact ih (y, F.pyabs (F.sub (pct y) target), pct y)
        (hsub y (List.mem_cons_self y ys)) (fun c hc => hsub c (List.mem_cons_of_mem y hc))
    · simp only [hblt, if_false]
      exact ih (bx, be, bp) hacc (fun c hc => hsub c (List.mem_cons_of_mem y hc))

/-- On a nonempty grid the search returns an incumbent from the grid. -/
theorem grid_best_some_mem (pct : F → F) (target : F) :
    ∃ bx be bp, grid_best x_candidates pct target = some (bx, be, bp) ∧ bx ∈ x_candidates := by
  cases hx : x_candidates with
  | nil => exact absurd hx (by decide)
  | cons y ys =>
    unfold grid_best
    simp only [List.foldl_cons]
    exact grid_best_fold_mem pct target (y :: ys) ys
      (y, F.pyabs (F.sub (pct y) target), pct y)
      (List.mem_cons_self y ys) (fun c hc => List.mem_cons_of_mem y hc)

/-- Every discriminator calibration yields a record whose `best_x` comes
from the fixed grid, with `inner = 2·best_x` and `outer = 3·best_x`. -/
theorem calibrate_disc_spec (data : List (List F)) (queries : List Nat) (k : Nat)
    (target : F) :
    ∃ r, calibrate_disc data queries k target = some r ∧ r.best_x ∈ x_candidates ∧
      r.best_inner = F.mul (F.ofInt 2) r.best_x ∧
      r.best_outer = F.mul (F.ofInt 3) r.best_x := by
  obtain ⟨bx, be, bp, heq, hmem⟩ :=
    grid_best_some_mem (fun x => avg_percentage data queries k x) target
  unfold calibrate_disc
  rw [heq]
  exact ⟨_, rfl, hmem, rfl, rfl⟩

set_option maxHeartbeats 800000 in
/-- C7 (amended): on a nonempty library snapshot every (tier, discriminator)
calibration is defined, its `best_x` is one of the 50 fixed grid candidates,
and the recorded radii satisfy `inner = 2·best_x`, `outer = 3·best_x`; the
claimed monotonicity `microscope.outer ≤ magnifying_glass.outer ≤
binoculars.outer` does not hold in general (see the counterexample). -/
theorem C7_calibration_radii_from_grid (st : CalibrationState)
    (hn : 1 ≤ st.primary_d.length) :
    ∀ tier ∈ [(calibrate_resolution_controls st).microscope,
        (calibrate_resolution_controls st).magnifying_glass,
        (calibrate_resolution_controls st).binoculars],
      ∀ res ∈ [tier.primary_d, tier.tonal, tier.spectral, tier.rhythmic],
        ∃ r, res = some r ∧ r.best_x ∈ x_candidates ∧
          r.best_inner = F.mul (F.ofInt 2) r.best_x ∧
          r.best_outer = F.mul (F.ofInt 3) r.best_x := by
  intro tier htier res hres
  simp only [List.mem_cons, List.not_mem_nil, or_false] at htier
  rcases htier with rfl | rfl | rfl <;>
    simp only [List.mem_cons, List.not_mem_nil, or_false] at hres <;>
    rcases hres with rfl | rfl | rfl | rfl <;>
    exact calibrate_disc_spec _ _ _ _

/-- Witness for C7's amended statement on a one-track library. -/
theorem C7_calibration_radii_from_grid_witness :
    ∃ r, (calibrate_resolution_controls
        ⟨[[F.ofInt 0]], [[F.ofInt 0]], [[F.ofInt 0]], [[F.ofInt 0]]⟩).microscope.primary_d
        = some r ∧ r.best_x ∈ x_candidates ∧
      r.best_inner = F.mul (F.ofInt 2) r.best_x ∧
      r.best_outer = F.mul (F.ofInt 3) r.best_x :=
  C7_calibration_radii_from_grid
    ⟨[[F.ofInt 0]], [[F.ofInt 0]], [[F.ofInt 0]], [[F.ofInt 0]]⟩ (by decide)
    _ (List.mem_cons_self _ _) _ (List.mem_cons_self _ _)

/-- The 12-track one-dimensional library of the monotonicity counterexample:
four point pairs at distance 1/40 (inside the rings of only the two smallest
grid candidates), one pair at distance 7 (inside the rings of only the three
largest), one coincident pair, and cluster separations beyond the largest
outer radius 3·3.1623.  The capture percentages are 100·8/144 ≈ 5.6% at
x ≈ 0.01 and 100·2/144 ≈ 1.4% at x ≈ 2.5, so the 1% tier picks the large
candidate while the 5% (and 10%) tiers pick the small one. -/
def calibDataC : List (List F) :=
  [[F.ofInt 0], [⟨1, 40⟩], [F.ofInt 20], [⟨801, 40⟩], [F.ofInt 40], [⟨1601, 40⟩],
   [F.ofInt 60], [⟨2401, 40⟩], [F.ofInt 80], [F.ofInt 87], [F.ofInt 100], [F.ofInt 100]]

/-- Calibration state of the counterexample (the same projected values in
every discriminator space; only `primary_d` is examined). -/
def calibStateC : CalibrationState := ⟨calibDataC, calibDataC, calibDataC, calibDataC⟩

/-- C7 (counterexample to the claim as stated): on this library snapshot the
microscope (1%) tier calibrates `primary_d` to `best_x ≈ 2.5001` while the
magnifying-glass (5%) tier calibrates it to `best_x = 0.01`, so
`microscope.outer_radius > magnifying_glass.outer_radius`: the chosen
`base_x` (and the outer radius) is not non-decreasing in the target
percentage. -/
theorem C7_monotonicity_counterexample :
    ((calibrate_resolution_controls calibStateC).microscope.primary_d.map
        (fun r => r.best_outer)).isSome = true ∧
    ((calibrate_resolution_controls calibStateC).magnifying_glass.primary_d.map
        (fun r => r.best_outer)).isSome = true ∧
    (((calibrate_resolution_controls calibStateC).magnifying_glass.primary_d.map
        (fun r => r.best_outer)).getD (F.ofInt 0)).toRat
      < (((calibrate_resolution_controls calibStateC).microscope.primary_d.map
        (fun r => r.best_outer)).getD (F.ofInt 0)).toRat := by
  have hmic : (calibrate_resolution_controls calibStateC).microscope.primary_d.map
      (fun r => r.best_outer) = some (F.mul (F.ofInt 3) (dec 2500110382617931 15)) := by
    decide
  have hmag : (calibrate_resolution_controls calibStateC).magnifying_glass.primary_d.map
      (fun r => r.best_outer) = some (F.mul (F.ofInt 3) (dec 1 2)) := by
    decide
  refine ⟨by rw [hmic]; rfl, by rw [hmag]; rfl, ?_⟩
  rw [hmic, hmag]
  simp only [Option.getD_some]
  norm_num [F.mul, F.ofInt, dec, F.toRat]
